import Mathlib

/-!
go-authcrunch: local backend and authenticator endpoint.

A shallow embedding of `pkg/authn/backends/local/backend.go` and
`pkg/authn/authenticator.go`.

Go pointers to realm authenticators are heap addresses (`Ptr`); the package
variable `globalAuthenticators` is a finite map from realm names to addresses.
Calls that leave the two source files (realm authenticator handlers, the
persistence load, the portal, the logger) are recorded as events in a trace, and
what they compute is a parameter of the embedding. A logging call through the
nil logger dereferences it and is a nil-reference fault.
-/

set_option autoImplicit false

/-! ## Package `errors` -/

namespace errors

/-- Modelled from the spec: the package `errors` is not among the source files.
Each constructor is the error value the source names; the arguments are those the
source passes to `WithArgs`. `foreign` stands for an error raised by a
collaborator outside the two source files (credential store, persistence,
portal registry, portal). -/
inductive StandardError where
  | ErrBackendConfigureNameEmpty
  | ErrBackendConfigureMethodEmpty
  | ErrBackendConfigureRealmEmpty
  | ErrBackendLocalConfigurePathEmpty
  | ErrBackendLocalConfigurePathMismatch (path registered : String)
  | ErrOperatorNotSupported (op : Int)
  | ErrBackendLocalAuthFailed (cause : StandardError)
  | ErrPortalUnavailable
  | foreign (msg : String)
  deriving DecidableEq, Repr

end errors

open errors (StandardError)

/-- A Go `error` result: `none` is `nil`. -/
abbrev GoError := Option StandardError

/-- A `*zap.Logger`: `none` is the nil logger, `some n` the logger with identity `n`. -/
abbrev Logger := Option Nat

/-- Heap address of a realm authenticator (`*Authenticator` of package `local`). -/
abbrev Ptr := Nat

/-- Outcome of a call that may end in a nil-reference fault (a Go panic). -/
inductive Outcome where
  | ret (err : GoError)
  | fault
  deriving DecidableEq, Repr

/-! ## Package `operator` -/

namespace operator

/-- The operation constants that `Backend.Request` names in its `switch`. -/
inductive Name where
  | Authenticate | IdentifyUser | ChangePassword | AddKeySSH | AddKeyGPG
  | DeletePublicKey | AddMfaToken | DeleteMfaToken | AddAPIKey | DeleteAPIKey
  | GetPublicKeys | GetAPIKeys | GetMfaTokens | AddUser | GetUsers | GetUser
  | DeleteUser | LookupAPIKey
  deriving DecidableEq, Repr

/-- Modelled from the spec: the package `operator` is not among the source files.
The Go type `operator.Type` (here `OpType`, `Type` being reserved) is an
integer-valued enumeration type, so values other than the eighteen constants
exist; the numeric value of each constant is a parameter (`Name → OpType`) of
`Backend.Request`. -/
abbrev OpType := Int

end operator

/-! ## Package `local` (`pkg/authn/backends/local`) -/

namespace backends

/-- Config holds the configuration for the backend. -/
structure Config where
  Name : String
  Method : String
  Realm : String
  Path : String
  deriving DecidableEq, Repr

/-- Modelled from the spec: the realm authenticator type of package `local` is not
among the source files. `path` and `logger` are the two fields `backend.go`
reads and writes; `db` is the credential record store the authenticator owns,
`none` until a load succeeded. -/
structure Authenticator (σ : Type) where
  path : String
  logger : Logger
  db : Option σ

/-- Modelled from the spec: `NewAuthenticator` is not among the source files; it
returns a fresh authenticator with every field at its zero value. -/
def NewAuthenticator {σ : Type} : Authenticator σ :=
  { path := "", logger := none, db := none }

/-- Modelled from the spec: `Authenticator.Configure(path)` is not among the source
files. It binds the store to its backing path and then performs the load
(`load(path) -> records`, an external persistence capability passed as `load`). -/
def Authenticator.Configure {σ : Type} (load : String → Except StandardError σ)
    (sa : Authenticator σ) (fp : String) : GoError × Authenticator σ :=
  let sa1 := { sa with path := fp }
  match load fp with
  | .error e => (some e, sa1)
  | .ok db => (none, { sa1 with db := some db })

/-- The handlers of the realm authenticator that `backend.go` calls. -/
inductive Method where
  | AuthenticateUser | IdentifyUser | ChangePassword | AddPublicKey
  | DeletePublicKey | AddMfaToken | DeleteMfaToken | AddAPIKey | DeleteAPIKey
  | GetPublicKeys | GetAPIKeys | GetMfaTokens | AddUser | GetUsers | GetUser
  | DeleteUser | LookupAPIKey
  deriving DecidableEq, Repr

/-- Value of a structured log field. -/
inductive FieldValue (ρ : Type) where
  | str (s : String)
  | op (v : operator.OpType)
  | req (r : ρ)
  | err (e : StandardError)

/-- Observable events of package `local`: a handler of the realm authenticator is
entered with receiver `recv` (`none` is the nil receiver), or a log record is
handed to a logger. -/
inductive Event (ρ : Type) where
  | call (m : Method) (recv : Option Ptr) (r : ρ)
  | log (logger : Logger) (level : String) (msg : String)
      (fields : List (String × FieldValue ρ))

/-- The heap of realm authenticators. -/
abbrev Heap (σ : Type) := Ptr → Authenticator σ

/-- Process state of package `local`: the heap of realm authenticators with its
allocation counter, the package variable `globalAuthenticators`, and the trace
of events so far. -/
structure World (σ ρ : Type) where
  heap : Heap σ
  next : Ptr
  globalAuthenticators : String → Option Ptr
  trace : List (Event ρ)

/-- Backend represents authentication provider with local backend. -/
structure Backend where
  config : Config
  authenticator : Option Ptr
  logger : Logger
  deriving DecidableEq, Repr

/-- NewDatabaseBackend returns a backend with the given config and logger; the
authenticator reference is left nil. -/
def NewDatabaseBackend (cfg : Config) (logger : Logger) : Backend :=
  { config := cfg, authenticator := none, logger := logger }

/-- GetRealm return authentication realm. -/
def Backend.GetRealm (b : Backend) : String := b.config.Realm

/-- GetName return the name associated with this backend. -/
def Backend.GetName (b : Backend) : String := b.config.Name

/-- GetMethod returns the authentication method associated with this backend. -/
def Backend.GetMethod (b : Backend) : String := b.config.Method

/-- Lines 141-142 of `backend.go`: the resolved authenticator at address `p` gets
the backend's logger and is configured with the backend's path. -/
def Backend.configureResolved {σ ρ : Type} (load : String → Except StandardError σ)
    (b : Backend) (p : Ptr) (w : World σ ρ) : GoError × Backend × World σ ρ :=
  let sa := { w.heap p with logger := b.logger }
  let res := Authenticator.Configure load sa b.config.Path
  (res.1, b, { w with heap := Function.update w.heap p res.2 })

/-- Configure configures Backend. -/
def Backend.Configure {σ ρ : Type} (load : String → Except StandardError σ)
    (b : Backend) (w : World σ ρ) : GoError × Backend × World σ ρ :=
  if b.config.Name = "" then (some .ErrBackendConfigureNameEmpty, b, w)
  else if b.config.Method = "" then (some .ErrBackendConfigureMethodEmpty, b, w)
  else if b.config.Realm = "" then (some .ErrBackendConfigureRealmEmpty, b, w)
  else if b.config.Path = "" then (some .ErrBackendLocalConfigurePathEmpty, b, w)
  else
    match b.authenticator with
    | none =>
      match w.globalAuthenticators b.config.Realm with
      | some v =>
        if b.config.Path ≠ (w.heap v).path then
          (some (.ErrBackendLocalConfigurePathMismatch b.config.Path (w.heap v).path), b, w)
        else
          Backend.configureResolved load { b with authenticator := some v } v w
      | none =>
        let p := w.next
        let w1 : World σ ρ :=
          { w with
            heap := Function.update w.heap p NewAuthenticator
            next := p + 1
            globalAuthenticators :=
              Function.update w.globalAuthenticators b.config.Realm (some p) }
        Backend.configureResolved load { b with authenticator := some p } p w1
    | some p => Backend.configureResolved load b p w

/-- Modelled from the spec: the handlers of the realm authenticator are not among
the source files. A handler table tells, for a method entered with receiver
`recv` (`none` is the nil receiver) and request `r`, how the call ends and what
it leaves on the heap of realm authenticators. -/
abbrev Handlers (σ ρ : Type) := Method → Option Ptr → ρ → Heap σ → Outcome × Heap σ

/-- The call `b.authenticator.M(r)`: the handler `m` is entered once with the
receiver `recv`; the call is recorded in the trace. -/
def invoke {σ ρ : Type} (H : Handlers σ ρ) (m : Method) (recv : Option Ptr) (r : ρ)
    (w : World σ ρ) : Outcome × World σ ρ :=
  let res := H m recv r w.heap
  (res.1, { w with heap := res.2, trace := w.trace ++ [Event.call m recv r] })

/-- Authenticate performs authentication. -/
def Backend.Authenticate {σ ρ : Type} (H : Handlers σ ρ) (b : Backend) (r : ρ)
    (w : World σ ρ) : Outcome × World σ ρ :=
  match invoke H .AuthenticateUser b.authenticator r w with
  | (.ret (some err), w1) => (.ret (some (.ErrBackendLocalAuthFailed err)), w1)
  | (.ret none, w1) => (.ret none, w1)
  | (.fault, w1) => (.fault, w1)

/-- Request performs the requested backend operation. The `switch` compares `op`
with the operation constants from top to bottom; `codes` gives their values.
After the `switch`, `b.logger.Error` is called before the return: through the nil
logger that call faults. -/
def Backend.Request {σ ρ : Type} (codes : operator.Name → operator.OpType)
    (H : Handlers σ ρ) (b : Backend) (op : operator.OpType) (r : ρ) (w : World σ ρ) :
    Outcome × World σ ρ :=
  if op = codes .Authenticate then b.Authenticate H r w
  else if op = codes .IdentifyUser then invoke H .IdentifyUser b.authenticator r w
  else if op = codes .ChangePassword then invoke H .ChangePassword b.authenticator r w
  else if op = codes .AddKeySSH then invoke H .AddPublicKey b.authenticator r w
  else if op = codes .AddKeyGPG then invoke H .AddPublicKey b.authenticator r w
  else if op = codes .DeletePublicKey then invoke H .DeletePublicKey b.authenticator r w
  else if op = codes .AddMfaToken then invoke H .AddMfaToken b.authenticator r w
  else if op = codes .DeleteMfaToken then invoke H .DeleteMfaToken b.authenticator r w
  else if op = codes .AddAPIKey then invoke H .AddAPIKey b.authenticator r w
  else if op = codes .DeleteAPIKey then invoke H .DeleteAPIKey b.authenticator r w
  else if op = codes .GetPublicKeys then invoke H .GetPublicKeys b.authenticator r w
  else if op = codes .GetAPIKeys then invoke H .GetAPIKeys b.authenticator r w
  else if op = codes .GetMfaTokens then invoke H .GetMfaTokens b.authenticator r w
  else if op = codes .AddUser then invoke H .AddUser b.authenticator r w
  else if op = codes .GetUsers then invoke H .GetUsers b.authenticator r w
  else if op = codes .GetUser then invoke H .GetUser b.authenticator r w
  else if op = codes .DeleteUser then invoke H .DeleteUser b.authenticator r w
  else if op = codes .LookupAPIKey then invoke H .LookupAPIKey b.authenticator r w
  else
    match b.logger with
    | none => (.fault, w)
    | some l =>
      (.ret (some (.ErrOperatorNotSupported op)),
        { w with
          trace := w.trace ++
            [Event.log (some l) "error" "detected unsupported backend operation"
              [("op", .op op), ("params", .req r)]] })

/-- Validate checks whether Backend is functional. -/
def Backend.Validate {σ ρ : Type} (b : Backend) (w : World σ ρ) : Outcome × World σ ρ :=
  match b.logger with
  | none => (.fault, w)
  | some l =>
    (.ret none,
      { w with
        trace := w.trace ++
          [Event.log (some l) "info" "validating local backend"
            [("db_path", .str b.config.Path)]] })

/-- A `strings.Builder`: `WriteString` appends to the accumulated text. -/
def Builder.WriteString (sb : String) (s : String) : String := sb ++ s

/-- GetConfig returns Backend configuration. -/
def Backend.GetConfig (b : Backend) : String :=
  let sb := ""
  let sb := Builder.WriteString sb ("name " ++ b.config.Name ++ "\n")
  let sb := Builder.WriteString sb ("method " ++ b.config.Method ++ "\n")
  let sb := Builder.WriteString sb ("realm " ++ b.config.Realm ++ "\n")
  let sb := Builder.WriteString sb ("path " ++ b.config.Path ++ "")
  sb

end backends

open backends

/-- The handler of the realm authenticator that corresponds to an operation:
`Authenticate` reaches `AuthenticateUser` through `Backend.Authenticate`, both
`AddKeySSH` and `AddKeyGPG` reach `AddPublicKey`, every other operation the
handler of its own name. -/
def operator.Name.handler : operator.Name → Method
  | .Authenticate => .AuthenticateUser
  | .IdentifyUser => .IdentifyUser
  | .ChangePassword => .ChangePassword
  | .AddKeySSH => .AddPublicKey
  | .AddKeyGPG => .AddPublicKey
  | .DeletePublicKey => .DeletePublicKey
  | .AddMfaToken => .AddMfaToken
  | .DeleteMfaToken => .DeleteMfaToken
  | .AddAPIKey => .AddAPIKey
  | .DeleteAPIKey => .DeleteAPIKey
  | .GetPublicKeys => .GetPublicKeys
  | .GetAPIKeys => .GetAPIKeys
  | .GetMfaTokens => .GetMfaTokens
  | .AddUser => .AddUser
  | .GetUsers => .GetUsers
  | .GetUser => .GetUser
  | .DeleteUser => .DeleteUser
  | .LookupAPIKey => .LookupAPIKey


/-! ## Package `authn` (`pkg/authn/authenticator.go`) -/

namespace authn

/-- Address of a `Portal`; the type `Portal` is not among the source files. -/
abbrev PortalRef := Nat

/-- Authenticator is an authentication endpoint. `portal` is `none` for the nil
portal reference. -/
structure Authenticator where
  Path : String
  PortalName : String
  logger : Logger
  id : String
  portalID : String
  portal : Option PortalRef
  deriving DecidableEq, Repr

/-- Value of a structured log field of the endpoint. -/
inductive FieldValue where
  | str (s : String)
  | err (e : StandardError)
  deriving DecidableEq, Repr

/-- Observable events of the endpoint: the `ServeHTTP` of the portal at `portal` is
entered with the arguments `args`, or a log record is handed to a logger. -/
inductive Event (α : Type) where
  | serve (portal : PortalRef) (args : α)
  | log (logger : Logger) (level : String) (msg : String)
      (fields : List (String × FieldValue))
  deriving DecidableEq, Repr

/-- State around the endpoint: `ext` is the state of the HTTP-facing collaborators
(response writer, portal), `trace` the events so far. -/
structure State (S α : Type) where
  ext : S
  trace : List (Event α)

/-- Provision configures the instance of Authenticator. `uuid` is the identifier
`uuid.NewV4().String()` yields; `lookup` and `register` are
`portalRegistry.LookupPortal` and `portalRegistry.RegisterAuthenticator`, which
are not among the source files, acting on the portal registry state `R`.
`register` receives the pointer `m`: the third component of its result is the
`portalID` it leaves in `m`. The portal is assigned before the final
`m.logger.Info`, which faults through the nil logger. -/
def Authenticator.Provision {R S α : Type} (uuid : String)
    (lookup : R → String → Option PortalRef × GoError)
    (register : R → Authenticator → GoError × R × String)
    (m : Authenticator) (logger : Logger) (reg : R) (st : State S α) :
    Outcome × Authenticator × R × State S α :=
  let m1 := { m with logger := logger, id := uuid }
  match lookup reg m1.PortalName with
  | (_, some err) => (.ret (some err), m1, reg, st)
  | (portal, none) =>
    match register reg m1 with
    | (some err, reg1, pid) => (.ret (some err), { m1 with portalID := pid }, reg1, st)
    | (none, reg1, pid) =>
      let m2 := { m1 with portalID := pid, portal := portal }
      match m2.logger with
      | none => (.fault, m2, reg1, st)
      | some l =>
        (.ret none, m2, reg1,
          { st with
            trace := st.trace ++
              [Event.log (some l) "info" "provisioned authenticator"
                [("portal_name", .str m2.PortalName), ("portal_id", .str m2.portalID),
                  ("path", .str m2.Path), ("id", .str m2.id)]] })

/-- Validate validates the provisioning. -/
def Authenticator.Validate {S α : Type} (m : Authenticator) (st : State S α) :
    Outcome × State S α :=
  match m.logger with
  | none => (.fault, st)
  | some l =>
    (.ret none,
      { st with
        trace := st.trace ++
          [Event.log (some l) "info" "validated authenticator"
            [("portal_name", .str m.PortalName), ("portal_id", .str m.portalID),
              ("path", .str m.Path), ("id", .str m.id)]] })

/-- ServeHTTP is a gateway for the authentication portal. `args` bundles the four
arguments `(ctx, w, r, rr)`; `serve` is `Portal.ServeHTTP`, which is not among
the source files. With no portal, `m.logger.Warn` is called before the return:
through the nil logger that call faults. -/
def Authenticator.ServeHTTP {S α : Type} (serve : PortalRef → α → S → Outcome × S)
    (m : Authenticator) (args : α) (st : State S α) : Outcome × State S α :=
  match m.portal with
  | none =>
    match m.logger with
    | none => (.fault, st)
    | some l =>
      (.ret (some .ErrPortalUnavailable),
        { st with
          trace := st.trace ++
            [Event.log (some l) "warn" "ServeHTTP failed"
              [("portal_name", .str m.PortalName), ("portal_id", .str m.portalID),
                ("id", .str m.id), ("error", .err .ErrPortalUnavailable)]] })
  | some portal =>
    let res := serve portal args st.ext
    (res.1, { ext := res.2, trace := st.trace ++ [Event.serve portal args] })

end authn

/-! ## Auxiliary definitions -/

/-- All four configuration fields are non-empty. -/
def backends.Config.complete (c : Config) : Prop :=
  c.Name ≠ "" ∧ c.Method ≠ "" ∧ c.Realm ≠ "" ∧ c.Path ≠ ""

instance (c : Config) : Decidable c.complete := by
  unfold backends.Config.complete
  exact inferInstance

/-- The state after the `else` branch of lines 136-139: a new authenticator is
allocated and registered under the backend's realm. -/
def backends.World.register {σ ρ : Type} (w : World σ ρ) (realm : String) : World σ ρ :=
  { w with
    heap := Function.update w.heap w.next NewAuthenticator
    next := w.next + 1
    globalAuthenticators := Function.update w.globalAuthenticators realm (some w.next) }

/-- A sequence of `Configure` calls, each with its own load capability, run in
order from the state `w`; the result is the final state. -/
def backends.configureAll {σ ρ : Type} :
    List ((String → Except StandardError σ) × Backend) → World σ ρ → World σ ρ
  | [], w => w
  | (load, b) :: rest, w => configureAll rest (Backend.Configure load b w).2.2

/-! ## Concrete inputs -/

/-- A choice of values for the operation constants: 1 to 18 in the order of the
`switch`, leaving 0 and everything above 18 outside the enumeration. -/
def exampleCodes : operator.Name → operator.OpType
  | .Authenticate => 1
  | .IdentifyUser => 2
  | .ChangePassword => 3
  | .AddKeySSH => 4
  | .AddKeyGPG => 5
  | .DeletePublicKey => 6
  | .AddMfaToken => 7
  | .DeleteMfaToken => 8
  | .AddAPIKey => 9
  | .DeleteAPIKey => 10
  | .GetPublicKeys => 11
  | .GetAPIKeys => 12
  | .GetMfaTokens => 13
  | .AddUser => 14
  | .GetUsers => 15
  | .GetUser => 16
  | .DeleteUser => 17
  | .LookupAPIKey => 18

/-- The state of a process that has configured nothing yet. -/
def emptyWorld : World Unit Unit :=
  { heap := fun _ => NewAuthenticator, next := 0, globalAuthenticators := fun _ => none,
    trace := [] }

/-- A load capability that finds every path loadable. -/
def loadOk : String → Except StandardError Unit := fun _ => .ok ()

/-- A handler table in which `AuthenticateUser` rejects the credentials and every
other handler succeeds, none of them touching the heap. -/
def exampleHandlers : Handlers Unit Unit := fun m _ _ h =>
  match m with
  | .AuthenticateUser => (.ret (some (.foreign "user authentication failed")), h)
  | _ => (.ret none, h)

/-- The config of the end-to-end example of the spec. -/
def cfgA : Config := ⟨"db1", "local", "default", "/data/users.db"⟩

/-- A second config for the same realm and path. -/
def cfgB : Config := ⟨"db2", "local", "default", "/data/users.db"⟩

/-- A config for the same realm with a different path. -/
def cfgC : Config := ⟨"db3", "local", "default", "/data/other.db"⟩

/-- A portal whose `ServeHTTP` always succeeds and counts its calls. -/
def examplePortal : authn.PortalRef → Unit → Nat → Outcome × Nat :=
  fun _ _ n => (.ret none, n + 1)

/-- A portal registry lookup that knows no portal. -/
def lookupNone : Unit → String → Option authn.PortalRef × GoError :=
  fun _ name => (none, some (.foreign ("portal not found: " ++ name)))

/-- A registration that always succeeds and leaves the portal identifier empty. -/
def registerOk : Unit → authn.Authenticator → GoError × Unit × String :=
  fun _ _ => (none, (), "")

/-- An endpoint on which `Provision` has not run. -/
def unprovisioned : authn.Authenticator :=
  { Path := "/auth", PortalName := "myportal", logger := none, id := "", portalID := "",
    portal := none }

/-- A backend for `cfgA` that has been configured: its authenticator is at address 0. -/
def configuredA : Backend := { config := cfgA, authenticator := some 0, logger := none }

/-- The same configured backend holding the logger 1. -/
def loggedA : Backend := { config := cfgA, authenticator := some 0, logger := some 1 }

/-! ## Field validation -/

/-- C1: when exactly one of Name, Method, Realm, Path is empty and the other three
are not, `Backend.Configure` returns the error of that field, and the backend
(its authenticator reference included) and the whole process state (registry and
heap of realm authenticators) are returned unchanged. -/
theorem backends.Configure_field_validation {σ ρ : Type}
    (load : String → Except StandardError σ) (b : Backend) (w : World σ ρ) :
    (b.config.Name = "" → b.config.Method ≠ "" → b.config.Realm ≠ "" →
        b.config.Path ≠ "" →
        Backend.Configure load b w = (some .ErrBackendConfigureNameEmpty, b, w)) ∧
    (b.config.Name ≠ "" → b.config.Method = "" → b.config.Realm ≠ "" →
        b.config.Path ≠ "" →
        Backend.Configure load b w = (some .ErrBackendConfigureMethodEmpty, b, w)) ∧
    (b.config.Name ≠ "" → b.config.Method ≠ "" → b.config.Realm = "" →
        b.config.Path ≠ "" →
        Backend.Configure load b w = (some .ErrBackendConfigureRealmEmpty, b, w)) ∧
    (b.config.Name ≠ "" → b.config.Method ≠ "" → b.config.Realm ≠ "" →
        b.config.Path = "" →
        Backend.Configure load b w = (some .ErrBackendLocalConfigurePathEmpty, b, w)) := by
  refine ⟨?_, ?_, ?_, ?_⟩
  · intro h1 _ _ _
    simp [Backend.Configure, h1]
  · intro h1 h2 _ _
    simp [Backend.Configure, h1, h2]
  · intro h1 h2 h3 _
    simp [Backend.Configure, h1, h2, h3]
  · intro h1 h2 h3 h4
    simp [Backend.Configure, h1, h2, h3, h4]

/-! ## Realm registry: sharing and conflicts -/

theorem backends.Authenticator.Configure_path {σ : Type}
    (load : String → Except StandardError σ) (sa : Authenticator σ) (fp : String) :
    (Authenticator.Configure load sa fp).2.path = fp := by
  unfold Authenticator.Configure
  cases load fp <;> rfl

theorem backends.Authenticator.Configure_logger {σ : Type}
    (load : String → Except StandardError σ) (sa : Authenticator σ) (fp : String) :
    (Authenticator.Configure load sa fp).2.logger = sa.logger := by
  unfold Authenticator.Configure
  cases load fp <;> rfl

theorem backends.Authenticator.Configure_ok {σ : Type}
    (load : String → Except StandardError σ) (sa : Authenticator σ) (fp : String) (db : σ)
    (h : load fp = .ok db) : (Authenticator.Configure load sa fp).1 = none := by
  unfold Authenticator.Configure
  rw [h]

theorem backends.Configure_absent {σ ρ : Type} (load : String → Except StandardError σ)
    (b : Backend) (w : World σ ρ) (hc : b.config.complete) (hb : b.authenticator = none)
    (hreg : w.globalAuthenticators b.config.Realm = none) :
    Backend.Configure load b w =
      Backend.configureResolved load { b with authenticator := some w.next } w.next
        (w.register b.config.Realm) := by
  obtain ⟨h1, h2, h3, h4⟩ := hc
  simp [Backend.Configure, h1, h2, h3, h4, hb, hreg, World.register]

theorem backends.Configure_present {σ ρ : Type} (load : String → Except StandardError σ)
    (b : Backend) (w : World σ ρ) (v : Ptr) (hc : b.config.complete)
    (hb : b.authenticator = none)
    (hreg : w.globalAuthenticators b.config.Realm = some v) :
    Backend.Configure load b w =
      if b.config.Path ≠ (w.heap v).path then
        (some (.ErrBackendLocalConfigurePathMismatch b.config.Path (w.heap v).path), b, w)
      else Backend.configureResolved load { b with authenticator := some v } v w := by
  obtain ⟨h1, h2, h3, h4⟩ := hc
  simp [Backend.Configure, h1, h2, h3, h4, hb, hreg]

theorem backends.configureResolved_registry {σ ρ : Type}
    (load : String → Except StandardError σ) (b : Backend) (p : Ptr) (w : World σ ρ) :
    (Backend.configureResolved load b p w).2.2.globalAuthenticators =
      w.globalAuthenticators := rfl

/-- C2: A and B are built by `NewDatabaseBackend` from complete configs with the
same realm and different paths; A is configured against a registry without an
entry for the realm and succeeds. Then the registry maps the realm to A's
authenticator, whose recorded path is A's path and whose logger is A's logger,
and `B.Configure` returns `ErrBackendLocalConfigurePathMismatch` carrying B's
path and the registered path, leaving B (no authenticator attached) and the
whole state (registry entry, A's authenticator) unchanged. -/
theorem backends.Configure_path_mismatch {σ ρ : Type}
    (loadA loadB : String → Except StandardError σ) (cfgA cfgB : Config)
    (logA logB : Logger) (w : World σ ρ)
    (hA : cfgA.complete) (hB : cfgB.complete)
    (hrealm : cfgA.Realm = cfgB.Realm) (hpath : cfgA.Path ≠ cfgB.Path)
    (hreg : w.globalAuthenticators cfgA.Realm = none)
    (_hok : (Backend.Configure loadA (NewDatabaseBackend cfgA logA) w).1 = none) :
    ∃ p : Ptr,
      (Backend.Configure loadA (NewDatabaseBackend cfgA logA) w).2.1.authenticator = some p ∧
      (Backend.Configure loadA (NewDatabaseBackend cfgA logA) w).2.2.globalAuthenticators
        cfgA.Realm = some p ∧
      ((Backend.Configure loadA (NewDatabaseBackend cfgA logA) w).2.2.heap p).path
        = cfgA.Path ∧
      ((Backend.Configure loadA (NewDatabaseBackend cfgA logA) w).2.2.heap p).logger
        = logA ∧
      Backend.Configure loadB (NewDatabaseBackend cfgB logB)
          (Backend.Configure loadA (NewDatabaseBackend cfgA logA) w).2.2 =
        (some (.ErrBackendLocalConfigurePathMismatch cfgB.Path cfgA.Path),
          NewDatabaseBackend cfgB logB,
          (Backend.Configure loadA (NewDatabaseBackend cfgA logA) w).2.2) := by
  have hcA : Backend.Configure loadA (NewDatabaseBackend cfgA logA) w = _ :=
    Configure_absent loadA (NewDatabaseBackend cfgA logA) w hA rfl hreg
  rw [hcA]
  have hp : ((Backend.configureResolved loadA
      { NewDatabaseBackend cfgA logA with authenticator := some w.next } w.next
      (w.register (NewDatabaseBackend cfgA logA).config.Realm)).2.2.heap w.next).path
      = cfgA.Path := by
    simp [Backend.configureResolved, Authenticator.Configure_path, NewDatabaseBackend]
  have hr : (Backend.configureResolved loadA
      { NewDatabaseBackend cfgA logA with authenticator := some w.next } w.next
      (w.register (NewDatabaseBackend cfgA logA).config.Realm)).2.2.globalAuthenticators
      cfgB.Realm = some w.next := by
    rw [configureResolved_registry]
    simp [World.register, NewDatabaseBackend, hrealm]
  refine ⟨w.next, rfl, ?_, hp, ?_, ?_⟩
  · rw [hrealm]; exact hr
  · simp [Backend.configureResolved, Authenticator.Configure_logger, NewDatabaseBackend]
  · rw [Configure_present loadB (NewDatabaseBackend cfgB logB) _ w.next hB rfl hr, hp]
    simp [NewDatabaseBackend, Ne.symm hpath]

/-- C3: A and B are built by `NewDatabaseBackend` from complete configs with the
same realm and the same path, and are configured one after the other against a
registry without an entry for the realm; the authenticator's own configure step
succeeds both times (the load of the path succeeds). Then both `Configure` calls
return no error, and A, B and the registry all refer to the same authenticator
instance. -/
theorem backends.Configure_shared {σ ρ : Type}
    (loadA loadB : String → Except StandardError σ) (cfgA cfgB : Config)
    (logA logB : Logger) (w : World σ ρ) (dbA dbB : σ)
    (hA : cfgA.complete) (hB : cfgB.complete)
    (hrealm : cfgA.Realm = cfgB.Realm) (hpath : cfgA.Path = cfgB.Path)
    (hreg : w.globalAuthenticators cfgA.Realm = none)
    (hloadA : loadA cfgA.Path = .ok dbA) (hloadB : loadB cfgB.Path = .ok dbB) :
    (Backend.Configure loadA (NewDatabaseBackend cfgA logA) w).1 = none ∧
    (Backend.Configure loadB (NewDatabaseBackend cfgB logB)
      (Backend.Configure loadA (NewDatabaseBackend cfgA logA) w).2.2).1 = none ∧
    ∃ p : Ptr,
      (Backend.Configure loadA (NewDatabaseBackend cfgA logA) w).2.1.authenticator = some p ∧
      (Backend.Configure loadB (NewDatabaseBackend cfgB logB)
        (Backend.Configure loadA (NewDatabaseBackend cfgA logA) w).2.2).2.1.authenticator
        = some p ∧
      (Backend.Configure loadB (NewDatabaseBackend cfgB logB)
        (Backend.Configure loadA (NewDatabaseBackend cfgA logA) w).2.2).2.2.globalAuthenticators
        cfgA.Realm = some p ∧
      ((Backend.Configure loadB (NewDatabaseBackend cfgB logB)
        (Backend.Configure loadA (NewDatabaseBackend cfgA logA) w).2.2).2.2.heap p).path
        = cfgA.Path := by
  have hcA : Backend.Configure loadA (NewDatabaseBackend cfgA logA) w = _ :=
    Configure_absent loadA (NewDatabaseBackend cfgA logA) w hA rfl hreg
  rw [hcA]
  have hp : ((Backend.configureResolved loadA
      { NewDatabaseBackend cfgA logA with authenticator := some w.next } w.next
      (w.register (NewDatabaseBackend cfgA logA).config.Realm)).2.2.heap w.next).path
      = cfgB.Path := by
    simp [Backend.configureResolved, Authenticator.Configure_path, NewDatabaseBackend, hpath]
  have hr : (Backend.configureResolved loadA
      { NewDatabaseBackend cfgA logA with authenticator := some w.next } w.next
      (w.register (NewDatabaseBackend cfgA logA).config.Realm)).2.2.globalAuthenticators
      cfgB.Realm = some w.next := by
    rw [configureResolved_registry]
    simp [World.register, NewDatabaseBackend, hrealm]
  have hcB := Configure_present loadB (NewDatabaseBackend cfgB logB) _ w.next hB rfl hr
  rw [hp] at hcB
  simp only [ne_eq, not_true_eq_false, ↓reduceIte, NewDatabaseBackend] at hcB
  simp only [NewDatabaseBackend] at hr ⊢
  rw [hcB]
  refine ⟨?_, ?_, w.next, rfl, rfl, ?_, ?_⟩
  · exact Authenticator.Configure_ok loadA _ _ dbA hloadA
  · exact Authenticator.Configure_ok loadB _ _ dbB hloadB
  · rw [configureResolved_registry]
    rw [← hrealm] at hr
    exact hr
  · simp [Backend.configureResolved, Authenticator.Configure_path, hpath]

/-! ## First writer wins -/

theorem backends.Configure_registry_cases {σ ρ : Type}
    (load : String → Except StandardError σ) (b : Backend) (w : World σ ρ) :
    (Backend.Configure load b w).2.2.globalAuthenticators = w.globalAuthenticators ∨
    (b.authenticator = none ∧ w.globalAuthenticators b.config.Realm = none ∧
      (Backend.Configure load b w).2.2.globalAuthenticators =
        Function.update w.globalAuthenticators b.config.Realm (some w.next)) := by
  unfold Backend.Configure
  split_ifs with h1 h2 h3 h4
  · exact Or.inl rfl
  · exact Or.inl rfl
  · exact Or.inl rfl
  · exact Or.inl rfl
  · cases hb : b.authenticator with
    | some p => exact Or.inl rfl
    | none =>
      cases hreg : w.globalAuthenticators b.config.Realm with
      | some v =>
        simp only
        split_ifs
        · exact Or.inl rfl
        · exact Or.inl rfl
      | none => exact Or.inr ⟨rfl, rfl, rfl⟩

theorem backends.Configure_registry_mono {σ ρ : Type}
    (load : String → Except StandardError σ) (b : Backend) (w : World σ ρ)
    (realm : String) (p : Ptr) (h : w.globalAuthenticators realm = some p) :
    (Backend.Configure load b w).2.2.globalAuthenticators realm = some p := by
  rcases Configure_registry_cases load b w with h0 | ⟨_, hreg, h0⟩
  · rw [h0]; exact h
  · rw [h0]
    have hne : realm ≠ b.config.Realm := by
      intro he
      rw [he, hreg] at h
      exact Option.noConfusion h
    rw [Function.update_noteq hne]
    exact h

theorem backends.configureAll_registry_mono {σ ρ : Type}
    (steps : List ((String → Except StandardError σ) × Backend)) (w : World σ ρ)
    (realm : String) (p : Ptr) (h : w.globalAuthenticators realm = some p) :
    (configureAll steps w).globalAuthenticators realm = some p := by
  induction steps generalizing w with
  | nil => exact h
  | cons s rest ih =>
    obtain ⟨load, b⟩ := s
    exact ih _ (Configure_registry_mono load b w realm p h)

/-- C10: first writer wins. After `Backend.Configure` returns, with or without an
error, every realm that was mapped before is mapped to the same authenticator
instance; the registry differs from the one before in at most one entry, the
backend's own realm, and only when that realm was absent (and the backend had no
authenticator yet); and over any sequence of `Configure` calls a realm that is
mapped keeps its authenticator. -/
theorem backends.Configure_first_writer_wins {σ ρ : Type}
    (load : String → Except StandardError σ) (b : Backend) (w : World σ ρ) :
    (∀ realm p, w.globalAuthenticators realm = some p →
      (Backend.Configure load b w).2.2.globalAuthenticators realm = some p) ∧
    (∀ realm, (Backend.Configure load b w).2.2.globalAuthenticators realm
        ≠ w.globalAuthenticators realm →
      realm = b.config.Realm ∧ w.globalAuthenticators realm = none ∧
      b.authenticator = none ∧
      (Backend.Configure load b w).2.2.globalAuthenticators realm = some w.next) ∧
    (∀ (steps : List ((String → Except StandardError σ) × Backend)) realm p,
      w.globalAuthenticators realm = some p →
      (configureAll steps w).globalAuthenticators realm = some p) := by
  refine ⟨Configure_registry_mono load b w, ?_, fun steps realm p h =>
    configureAll_registry_mono steps w realm p h⟩
  intro realm hne
  rcases Configure_registry_cases load b w with h0 | ⟨hb, hreg, h0⟩
  · rw [h0] at hne; exact absurd rfl hne
  · rw [h0] at hne ⊢
    by_cases he : realm = b.config.Realm
    · subst he
      exact ⟨rfl, hreg, hb, by simp⟩
    · rw [Function.update_noteq he] at hne; exact absurd rfl hne

/-! ## Rendering the configuration -/

/-- C6: `GetConfig` returns exactly `"name " ++ n ++ "\n" ++ "method " ++ m ++ "\n" ++
"realm " ++ r ++ "\n" ++ "path " ++ p` for the config `(n, m, r, p)`: the four
fields in that order, nothing after the path (the text ends with the characters
of `"path " ++ p`); it depends on the config alone; and the config
`{db1, local, default, /data/users.db}` renders as
`"name db1\nmethod local\nrealm default\npath /data/users.db"`. -/
theorem backends.GetConfig_render :
    (∀ b : Backend, b.GetConfig =
      "name " ++ b.config.Name ++ "\n" ++ "method " ++ b.config.Method ++ "\n" ++
        "realm " ++ b.config.Realm ++ "\n" ++ "path " ++ b.config.Path) ∧
    (∀ b : Backend, ∃ front : List Char, b.GetConfig.toList =
      front ++ ("path " ++ b.config.Path).toList) ∧
    (∀ b1 b2 : Backend, b1.config = b2.config → b1.GetConfig = b2.GetConfig) ∧
    (NewDatabaseBackend ⟨"db1", "local", "default", "/data/users.db"⟩ none).GetConfig =
      "name db1\nmethod local\nrealm default\npath /data/users.db" := by
  refine ⟨?_, ?_, ?_, by decide⟩
  · intro b
    simp [Backend.GetConfig, Builder.WriteString, String.ext_iff]
  · intro b
    refine ⟨("name " ++ b.config.Name ++ "\n" ++ "method " ++ b.config.Method ++ "\n" ++
        "realm " ++ b.config.Realm ++ "\n").toList, ?_⟩
    simp [Backend.GetConfig, Builder.WriteString]
  · intro b1 b2 h
    simp [Backend.GetConfig, h]

/-! ## Authentication wrapper -/

theorem errors.StandardError.wrap_ne (e : StandardError) :
    StandardError.ErrBackendLocalAuthFailed e ≠ e := by
  induction e with
  | ErrBackendLocalAuthFailed c ih =>
    intro h
    exact ih (StandardError.ErrBackendLocalAuthFailed.inj h)
  | _ => intro h; cases h

theorem backends.Authenticate_world {σ ρ : Type} (H : Handlers σ ρ) (b : Backend) (r : ρ)
    (w : World σ ρ) :
    (b.Authenticate H r w).2 = (invoke H .AuthenticateUser b.authenticator r w).2 := by
  unfold Backend.Authenticate
  split <;> simp_all

theorem backends.Authenticate_outcome {σ ρ : Type} (H : Handlers σ ρ) (b : Backend) (r : ρ)
    (w : World σ ρ) :
    (b.Authenticate H r w).1 =
      match (H .AuthenticateUser b.authenticator r w.heap).1 with
      | .ret (some err) => .ret (some (.ErrBackendLocalAuthFailed err))
      | .ret none => .ret none
      | .fault => .fault := by
  unfold Backend.Authenticate invoke
  cases h : (H .AuthenticateUser b.authenticator r w.heap).1 with
  | fault => simp [h]
  | ret err =>
    cases err with
    | none => simp [h]
    | some e => simp [h]

/-- C7: on a configured backend (authenticator reference `p`), `Backend.Authenticate`
returns no error exactly when the realm authenticator's `AuthenticateUser`
returns no error; when `AuthenticateUser` fails with `e`, it returns
`ErrBackendLocalAuthFailed` carrying `e`, which is never `e` itself. -/
theorem backends.Authenticate_wraps {σ ρ : Type} (H : Handlers σ ρ) (b : Backend) (p : Ptr)
    (hb : b.authenticator = some p) (r : ρ) (w : World σ ρ) :
    ((b.Authenticate H r w).1 = .ret none ↔
      (H .AuthenticateUser (some p) r w.heap).1 = .ret none) ∧
    (∀ e, (H .AuthenticateUser (some p) r w.heap).1 = .ret (some e) →
      (b.Authenticate H r w).1 = .ret (some (.ErrBackendLocalAuthFailed e)) ∧
      (b.Authenticate H r w).1 ≠ .ret (some e)) := by
  rw [Authenticate_outcome, hb]
  cases h : (H .AuthenticateUser (some p) r w.heap).1 with
  | fault => simp
  | ret err =>
    cases err with
    | none => simp
    | some e =>
      simp only [reduceCtorEq, false_iff, not_false_eq_true, true_and]
      refine ⟨by simp, ?_⟩
      intro e2 he2
      have : e = e2 := by simpa using he2
      subst this
      refine ⟨rfl, ?_⟩
      intro hc
      exact StandardError.wrap_ne e (by simpa using hc)

/-! ## Operation dispatch -/

theorem backends.Request_enumerated {σ ρ : Type} (codes : operator.Name → operator.OpType)
    (hinj : Function.Injective codes) (H : Handlers σ ρ) (b : Backend)
    (o : operator.Name) (r : ρ) (w : World σ ρ) :
    Backend.Request codes H b (codes o) r w =
      if o = .Authenticate then b.Authenticate H r w
      else invoke H o.handler b.authenticator r w := by
  cases o <;> simp [Backend.Request, hinj.eq_iff, operator.Name.handler]

theorem backends.Request_enumerated_trace {σ ρ : Type}
    (codes : operator.Name → operator.OpType)
    (hinj : Function.Injective codes) (H : Handlers σ ρ) (b : Backend)
    (o : operator.Name) (r : ρ) (w : World σ ρ) :
    (Backend.Request codes H b (codes o) r w).2 =
      { w with
        heap := (H o.handler b.authenticator r w.heap).2
        trace := w.trace ++ [Event.call o.handler b.authenticator r] } := by
  rw [Request_enumerated codes hinj]
  by_cases ho : o = .Authenticate
  · subst ho
    simp [Authenticate_world, invoke, operator.Name.handler]
  · simp [ho, invoke]

theorem backends.Request_enumerated_outcome {σ ρ : Type}
    (codes : operator.Name → operator.OpType)
    (hinj : Function.Injective codes) (H : Handlers σ ρ) (b : Backend)
    (o : operator.Name) (r : ρ) (w : World σ ρ) :
    (Backend.Request codes H b (codes o) r w).1 =
      if o = .Authenticate then
        match (H .AuthenticateUser b.authenticator r w.heap).1 with
        | .ret (some err) => .ret (some (.ErrBackendLocalAuthFailed err))
        | .ret none => .ret none
        | .fault => .fault
      else (H o.handler b.authenticator r w.heap).1 := by
  rw [Request_enumerated codes hinj]
  by_cases ho : o = .Authenticate
  · subst ho
    simp [Authenticate_outcome]
  · simp [ho, invoke]

/-- C4: the constants of the enumeration have pairwise distinct values (a Go `switch`
does not compile otherwise). For an enumerated operation `o` and a request `r` on
a configured backend (authenticator reference `p`), `Backend.Request` enters
exactly one handler, the one corresponding to `o`, exactly once, with receiver
`p` (the trace grows by that one call and by no log record, the heap becomes what
the handler leaves); for `Authenticate` the result is that of
`Backend.Authenticate`, for every other operation it is the handler's own result;
and the result is `ErrOperatorNotSupported` only if the handler itself returned
that error. -/
theorem backends.Request_dispatch {σ ρ : Type} (codes : operator.Name → operator.OpType)
    (hinj : Function.Injective codes) (H : Handlers σ ρ) (b : Backend) (p : Ptr)
    (hb : b.authenticator = some p) (o : operator.Name) (r : ρ) (w : World σ ρ) :
    (Backend.Request codes H b (codes o) r w).2.trace =
      w.trace ++ [Event.call o.handler (some p) r] ∧
    (Backend.Request codes H b (codes o) r w).2.heap =
      (H o.handler (some p) r w.heap).2 ∧
    (o = .Authenticate →
      Backend.Request codes H b (codes o) r w = b.Authenticate H r w) ∧
    (o ≠ .Authenticate →
      (Backend.Request codes H b (codes o) r w).1 = (H o.handler (some p) r w.heap).1) ∧
    ((∀ v, (H o.handler (some p) r w.heap).1 ≠ .ret (some (.ErrOperatorNotSupported v))) →
      ∀ v, (Backend.Request codes H b (codes o) r w).1
        ≠ .ret (some (.ErrOperatorNotSupported v))) := by
  have ht := Request_enumerated_trace codes hinj H b o r w
  have ho := Request_enumerated_outcome codes hinj H b o r w
  rw [hb] at ht ho
  refine ⟨by rw [ht], by rw [ht], ?_, ?_, ?_⟩
  · intro h
    rw [Request_enumerated codes hinj, if_pos h]
  · intro h
    rw [ho, if_neg h]
  · intro hH v
    rw [ho]
    by_cases h : o = .Authenticate
    · rw [if_pos h]
      cases (H .AuthenticateUser (some p) r w.heap).1 with
      | fault => simp
      | ret err => cases err <;> simp
    · rw [if_neg h]
      exact hH v

/-- C5 (as amended): on a backend whose logger is not nil, for an operation value
`op` that is none of the eighteen constants, `Backend.Request` enters no handler
(the heap is unchanged and the trace grows by one log record only) and returns
`ErrOperatorNotSupported` carrying `op`. -/
theorem backends.Request_unsupported {σ ρ : Type} (codes : operator.Name → operator.OpType)
    (H : Handlers σ ρ) (b : Backend) (l : Nat) (hl : b.logger = some l)
    (op : operator.OpType) (r : ρ) (w : World σ ρ)
    (hop : ∀ o, codes o ≠ op) :
    Backend.Request codes H b op r w =
      (.ret (some (.ErrOperatorNotSupported op)),
        { w with
          trace := w.trace ++
            [Event.log (some l) "error" "detected unsupported backend operation"
              [("op", .op op), ("params", .req r)]] }) := by
  have h : ∀ o, op ≠ codes o := fun o => Ne.symm (hop o)
  simp [Backend.Request, h, hl]

/-- C8 (as amended): `Backend.Request` makes no check of the authenticator
reference. On a backend that is still unconfigured (reference absent) and for an
enumerated operation `o`, it enters the handler corresponding to `o` once with
the nil receiver, and its result is what that call yields: the handler's own
outcome for every operation but `Authenticate`, and for `Authenticate` no error,
`ErrBackendLocalAuthFailed` around the handler's error, or the handler's fault.
`Request` itself adds no error of its own. -/
theorem backends.Request_unconfigured {σ ρ : Type} (codes : operator.Name → operator.OpType)
    (hinj : Function.Injective codes) (H : Handlers σ ρ) (b : Backend)
    (hb : b.authenticator = none) (o : operator.Name) (r : ρ) (w : World σ ρ) :
    (Backend.Request codes H b (codes o) r w).2.trace =
      w.trace ++ [Event.call o.handler none r] ∧
    (o ≠ .Authenticate →
      (Backend.Request codes H b (codes o) r w).1 = (H o.handler none r w.heap).1) ∧
    (o = .Authenticate →
      (Backend.Request codes H b (codes o) r w).1 =
        match (H .AuthenticateUser none r w.heap).1 with
        | .ret (some err) => .ret (some (.ErrBackendLocalAuthFailed err))
        | .ret none => .ret none
        | .fault => .fault) := by
  have ht := Request_enumerated_trace codes hinj H b o r w
  have ho := Request_enumerated_outcome codes hinj H b o r w
  rw [hb] at ht ho
  refine ⟨by rw [ht], ?_, ?_⟩
  · intro h
    rw [ho, if_neg h]
  · intro h
    rw [ho, if_pos h]

/-! ## Authenticator endpoint -/

/-- C9 (as amended): when the endpoint holds no portal and its logger is not nil,
`ServeHTTP` returns `ErrPortalUnavailable` and enters no portal (the
collaborators' state is unchanged and the trace grows by one log record only);
when it holds the portal `p`, the result and the state are exactly those of
`p`'s `ServeHTTP` on the same arguments. `Provision` assigns the portal only
after the lookup and the registration both succeeded: when it is given a logger
that is not nil and returns an error on an endpoint without a portal, the
endpoint still has no portal, holds that logger, and `ServeHTTP` on it returns
`ErrPortalUnavailable`. -/
theorem authn.ServeHTTP_portal {R S α : Type} (serve : authn.PortalRef → α → S → Outcome × S)
    (m : authn.Authenticator) (args : α) (st : authn.State S α) :
    (∀ l, m.portal = none → m.logger = some l →
      m.ServeHTTP serve args st =
        (.ret (some .ErrPortalUnavailable),
          { st with
            trace := st.trace ++
              [authn.Event.log (some l) "warn" "ServeHTTP failed"
                [("portal_name", .str m.PortalName), ("portal_id", .str m.portalID),
                  ("id", .str m.id), ("error", .err .ErrPortalUnavailable)]] })) ∧
    (∀ p, m.portal = some p →
      m.ServeHTTP serve args st =
        ((serve p args st.ext).1,
          { ext := (serve p args st.ext).2,
            trace := st.trace ++ [authn.Event.serve p args] })) ∧
    (∀ (uuid : String) (lookup : R → String → Option authn.PortalRef × GoError)
        (register : R → authn.Authenticator → GoError × R × String) (l : Nat) (reg : R)
        (st0 : authn.State S α) (e : StandardError),
      m.portal = none →
      (m.Provision uuid lookup register (some l) reg st0).1 = .ret (some e) →
      (m.Provision uuid lookup register (some l) reg st0).2.1.portal = none ∧
      (m.Provision uuid lookup register (some l) reg st0).2.1.logger = some l ∧
      ((m.Provision uuid lookup register (some l) reg st0).2.1.ServeHTTP serve args st).1 =
        .ret (some .ErrPortalUnavailable)) := by
  refine ⟨?_, ?_, ?_⟩
  · intro l h hl
    simp [authn.Authenticator.ServeHTTP, h, hl]
  · intro p h
    simp [authn.Authenticator.ServeHTTP, h]
  · intro uuid lookup register l reg st0 e hm herr
    have hp : (m.Provision uuid lookup register (some l) reg st0).2.1.portal = none ∧
        (m.Provision uuid lookup register (some l) reg st0).2.1.logger = some l := by
      unfold authn.Authenticator.Provision at herr ⊢
      rcases hl : lookup reg m.PortalName with ⟨portal, lerr⟩
      cases lerr with
      | some e1 => simp [hl, hm]
      | none =>
        rcases hr : register reg { m with logger := some l, id := uuid }
          with ⟨rerr, reg1, pid⟩
        cases rerr with
        | some e1 =>
          rw [hm] at hr
          simp [hl, hr, hm]
        | none => simp [hl, hr] at herr
    refine ⟨hp.1, hp.2, ?_⟩
    simp [authn.Authenticator.ServeHTTP, hp.1, hp.2]

/-! ## The theorems at concrete inputs -/

theorem exampleCodes_injective : Function.Injective exampleCodes := by
  intro a b h
  cases a <;> cases b <;> first | rfl | exact absurd h (by decide)

/-- Witness of C1: a config whose name alone is empty is refused with the name
error, and nothing changes. -/
theorem backends.Configure_field_validation_witness :
    Backend.Configure loadOk
        (NewDatabaseBackend ⟨"", "local", "default", "/data/users.db"⟩ none) emptyWorld =
      (some .ErrBackendConfigureNameEmpty,
        NewDatabaseBackend ⟨"", "local", "default", "/data/users.db"⟩ none, emptyWorld) :=
  (backends.Configure_field_validation loadOk
    (NewDatabaseBackend ⟨"", "local", "default", "/data/users.db"⟩ none) emptyWorld).1
    rfl (by decide) (by decide) (by decide)

/-- Witness of C2: `cfgA` is configured first, then `cfgC` (same realm, other path). -/
theorem backends.Configure_path_mismatch_witness :
    cfgA.complete ∧ cfgC.complete ∧ cfgA.Realm = cfgC.Realm ∧ cfgA.Path ≠ cfgC.Path ∧
    emptyWorld.globalAuthenticators cfgA.Realm = none ∧
    (Backend.Configure loadOk (NewDatabaseBackend cfgA none) emptyWorld).1 = none ∧
    Backend.Configure loadOk (NewDatabaseBackend cfgC (some 1))
        (Backend.Configure loadOk (NewDatabaseBackend cfgA none) emptyWorld).2.2 =
      (some (.ErrBackendLocalConfigurePathMismatch "/data/other.db" "/data/users.db"),
        NewDatabaseBackend cfgC (some 1),
        (Backend.Configure loadOk (NewDatabaseBackend cfgA none) emptyWorld).2.2) := by
  obtain ⟨_, _, _, _, _, h⟩ :=
    backends.Configure_path_mismatch loadOk loadOk cfgA cfgC none (some 1) emptyWorld
      (by decide) (by decide) rfl (by decide) rfl rfl
  exact ⟨by decide, by decide, rfl, by decide, rfl, rfl, h⟩

/-- Witness of C3: `cfgA` and `cfgB` (same realm, same path) end up sharing the
authenticator at address 0. -/
theorem backends.Configure_shared_witness :
    cfgA.complete ∧ cfgB.complete ∧ cfgA.Realm = cfgB.Realm ∧ cfgA.Path = cfgB.Path ∧
    emptyWorld.globalAuthenticators cfgA.Realm = none ∧
    (Backend.Configure loadOk (NewDatabaseBackend cfgA none) emptyWorld).1 = none ∧
    (Backend.Configure loadOk (NewDatabaseBackend cfgB none)
      (Backend.Configure loadOk (NewDatabaseBackend cfgA none) emptyWorld).2.2).1 = none := by
  have h := backends.Configure_shared loadOk loadOk cfgA cfgB none none emptyWorld () ()
    (by decide) (by decide) rfl rfl rfl rfl rfl
  exact ⟨by decide, by decide, rfl, rfl, rfl, h.1, h.2.1⟩

/-- Witness of C10: once `cfgA` has registered the realm `default` at address 0,
configuring `cfgC` and `cfgB` after it leaves the realm at address 0. -/
theorem backends.Configure_first_writer_wins_witness :
    (Backend.Configure loadOk (NewDatabaseBackend cfgA none) emptyWorld).2.2.globalAuthenticators
      "default" = some 0 ∧
    (configureAll [(loadOk, NewDatabaseBackend cfgC none), (loadOk, NewDatabaseBackend cfgB none)]
      (Backend.Configure loadOk (NewDatabaseBackend cfgA none) emptyWorld).2.2).globalAuthenticators
      "default" = some 0 :=
  ⟨rfl,
    (backends.Configure_first_writer_wins loadOk (NewDatabaseBackend cfgB none)
      (Backend.Configure loadOk (NewDatabaseBackend cfgA none) emptyWorld).2.2).2.2
      [(loadOk, NewDatabaseBackend cfgC none), (loadOk, NewDatabaseBackend cfgB none)]
      "default" 0 rfl⟩

/-- Witness of C7: the handler rejects the credentials, the backend returns the
wrapped error. -/
theorem backends.Authenticate_wraps_witness :
    configuredA.authenticator = some 0 ∧
    (configuredA.Authenticate exampleHandlers () emptyWorld).1 =
      .ret (some (.ErrBackendLocalAuthFailed (.foreign "user authentication failed"))) :=
  ⟨rfl,
    ((backends.Authenticate_wraps exampleHandlers configuredA 0 rfl () emptyWorld).2
      (.foreign "user authentication failed") rfl).1⟩

/-- Witness of C4: `AddKeyGPG` on the configured backend enters `AddPublicKey` once. -/
theorem backends.Request_dispatch_witness :
    Function.Injective exampleCodes ∧ configuredA.authenticator = some 0 ∧
    (Backend.Request exampleCodes exampleHandlers configuredA
      (exampleCodes .AddKeyGPG) () emptyWorld).2.trace =
      [Event.call .AddPublicKey (some 0) ()] :=
  ⟨exampleCodes_injective, rfl,
    (backends.Request_dispatch exampleCodes exampleCodes_injective exampleHandlers
      configuredA 0 rfl .AddKeyGPG () emptyWorld).1⟩

/-- Witness of C5 (as amended): the value 0 is none of the constants, and the
backend holds the logger 1. -/
theorem backends.Request_unsupported_witness :
    (∀ o, exampleCodes o ≠ 0) ∧ loggedA.logger = some 1 ∧
    (Backend.Request exampleCodes exampleHandlers loggedA 0 () emptyWorld).1 =
      .ret (some (.ErrOperatorNotSupported 0)) ∧
    (Backend.Request exampleCodes exampleHandlers loggedA 0 () emptyWorld).2.trace =
      [Event.log (some 1) "error" "detected unsupported backend operation"
        [("op", .op 0), ("params", .req ())]] := by
  have h0 : ∀ o, exampleCodes o ≠ 0 := by
    intro o
    cases o <;> decide
  have h := backends.Request_unsupported exampleCodes exampleHandlers loggedA 1 rfl 0 ()
    emptyWorld h0
  exact ⟨h0, rfl, by rw [h], by rw [h]; rfl⟩

/-- Counterexample to C5 as stated: the value 0 is none of the constants, the
backend `configuredA` holds the nil logger, and whatever the handlers are,
`Request` with the value 0 ends in a nil-reference fault at `b.logger.Error`
and returns no error value. -/
theorem backends.Request_unsupported_counterexample :
    (∀ o, exampleCodes o ≠ 0) ∧ configuredA.logger = none ∧
    ∀ H : Handlers Unit Unit,
      Backend.Request exampleCodes H configuredA 0 () emptyWorld = (.fault, emptyWorld) := by
  have h0 : ∀ o, (0 : operator.OpType) ≠ exampleCodes o := by
    intro o
    cases o <;> decide
  refine ⟨fun o => Ne.symm (h0 o), rfl, fun H => ?_⟩
  simp [Backend.Request, h0, configuredA]

/-- Witness of C8 (as amended): `IdentifyUser` on a backend fresh from
`NewDatabaseBackend` enters the handler with the nil receiver. -/
theorem backends.Request_unconfigured_witness :
    Function.Injective exampleCodes ∧ (NewDatabaseBackend cfgA none).authenticator = none ∧
    (Backend.Request exampleCodes exampleHandlers (NewDatabaseBackend cfgA none)
      (exampleCodes .IdentifyUser) () emptyWorld).2.trace =
      [Event.call .IdentifyUser none ()] :=
  ⟨exampleCodes_injective, rfl,
    (backends.Request_unconfigured exampleCodes exampleCodes_injective exampleHandlers
      (NewDatabaseBackend cfgA none) rfl .IdentifyUser () emptyWorld).1⟩

/-- Counterexample to C8 as stated: the backend `NewDatabaseBackend cfgA none` is
unconfigured, and whatever the handlers of the realm authenticator do,
`Request` with the operation `Authenticate` enters `AuthenticateUser` with the
nil receiver, and any error it returns is `ErrBackendLocalAuthFailed` around the
handler's error: there is no error of its own for an unavailable backend. -/
theorem backends.Request_unconfigured_counterexample :
    (NewDatabaseBackend cfgA none).authenticator = none ∧
    ∀ H : Handlers Unit Unit,
      (Backend.Request exampleCodes H (NewDatabaseBackend cfgA none)
        (exampleCodes .Authenticate) () emptyWorld).2.trace =
        [Event.call .AuthenticateUser none ()] ∧
      ((H .AuthenticateUser none () emptyWorld.heap).1 = .fault →
        (Backend.Request exampleCodes H (NewDatabaseBackend cfgA none)
          (exampleCodes .Authenticate) () emptyWorld).1 = .fault) ∧
      ∀ e, (Backend.Request exampleCodes H (NewDatabaseBackend cfgA none)
          (exampleCodes .Authenticate) () emptyWorld).1 = .ret (some e) →
        ∃ c, e = .ErrBackendLocalAuthFailed c := by
  refine ⟨rfl, fun H => ?_⟩
  have ht := backends.Request_enumerated_trace exampleCodes exampleCodes_injective H
    (NewDatabaseBackend cfgA none) .Authenticate () emptyWorld
  have ho := backends.Request_enumerated_outcome exampleCodes exampleCodes_injective H
    (NewDatabaseBackend cfgA none) .Authenticate () emptyWorld
  refine ⟨by rw [ht]; rfl, ?_, ?_⟩
  · intro hf
    rw [ho]
    simp only [NewDatabaseBackend, ↓reduceIte]
    rw [hf]
  · intro e he
    rw [ho] at he
    simp only [NewDatabaseBackend, ↓reduceIte] at he
    cases hH : (H .AuthenticateUser none () emptyWorld.heap).1 with
    | fault => rw [hH] at he; cases he
    | ret err =>
      rw [hH] at he
      cases err with
      | none => cases he
      | some c =>
        refine ⟨c, ?_⟩
        have : StandardError.ErrBackendLocalAuthFailed c = e := by simpa using he
        exact this.symm

/-- Witness of C9 (as amended): `Provision` with the logger 1 fails at the lookup;
the endpoint it leaves answers `ErrPortalUnavailable` and the portal's call
counter stays at 0; with portal 7 attached the portal answers. -/
theorem authn.ServeHTTP_portal_witness :
    unprovisioned.portal = none ∧
    (unprovisioned.Provision "id-1" lookupNone registerOk (some 1) ()
      (⟨0, []⟩ : authn.State Nat Unit)).1 =
      .ret (some (.foreign "portal not found: myportal")) ∧
    ((unprovisioned.Provision "id-1" lookupNone registerOk (some 1) ()
      (⟨0, []⟩ : authn.State Nat Unit)).2.1.ServeHTTP examplePortal () ⟨0, []⟩).1 =
      .ret (some .ErrPortalUnavailable) ∧
    ({ unprovisioned with portal := some 7 }.ServeHTTP examplePortal () ⟨0, []⟩).2.ext = 1 := by
  have h := authn.ServeHTTP_portal (R := Unit) examplePortal unprovisioned () ⟨0, []⟩
  have h2 := authn.ServeHTTP_portal (R := Unit) examplePortal
    { unprovisioned with portal := some 7 } () ⟨0, []⟩
  refine ⟨rfl, by decide, ?_, ?_⟩
  · exact (h.2.2 "id-1" lookupNone registerOk 1 () ⟨0, []⟩
      (.foreign "portal not found: myportal") rfl (by decide)).2.2
  · rw [h2.2.1 7 rfl]
    rfl

/-- Counterexample to C9 as stated: on the endpoint `unprovisioned` (`Provision`
was skipped: no portal, nil logger) `ServeHTTP` ends in a nil-reference fault at
`m.logger.Warn` and does not return `ErrPortalUnavailable`. -/
theorem authn.ServeHTTP_portal_counterexample :
    unprovisioned.portal = none ∧ unprovisioned.logger = none ∧
    unprovisioned.ServeHTTP examplePortal () ⟨0, []⟩ = (.fault, ⟨0, []⟩) ∧
    (unprovisioned.ServeHTTP examplePortal () ⟨0, []⟩).1 ≠
      .ret (some .ErrPortalUnavailable) := by
  refine ⟨rfl, rfl, rfl, ?_⟩
  decide
